import Mathlib

/-!
Verification of the zfbgserver client runtime against its design notes.

The development shallowly embeds `src/client.js` (the frame loop, local
prediction, network-snapshot handling, zoom and camera state) together with
the mobile bridge script.  Numeric state uses `ℚ`; the environment's
trigonometric primitives (`Math.cos`, `Math.sin`) are passed in as an
explicit `Trig` record, since the embedding only ever needs their values at
concrete sample points.
-/

/-- State of one key slot of the global key table: the level-triggered
`down` flag and the per-frame down counter used for edge triggering. -/
structure KeyState where
  down : Bool
  downCount : Nat
deriving DecidableEq

/-- The key table entries read by `handleKeys` and the bridge script. -/
structure Keys where
  keyUp : KeyState
  keyDown : KeyState
  keyLeft : KeyState
  keyRight : KeyState
  keyW : KeyState
  keyA : KeyState
  keyS : KeyState
  keyD : KeyState
  keyZ : KeyState
  keyQ : KeyState
  keyM : KeyState
  keyEscape : KeyState
  keySpace : KeyState
deriving DecidableEq

/-- Modelled from the spec: the per-frame bookkeeping of one key.  The file
`keys.js` is not under `src/`; per section 4.6 each logical input keeps a
`down` flag and a down-transition counter, with `downCount = 1` exactly on
the frame the key is newly down (edge trigger), so a held key counts up
each frame and a released key resets to zero. -/
def bumpKey (ks : KeyState) : KeyState :=
  { down := ks.down, downCount := if ks.down then ks.downCount + 1 else 0 }

/-- Modelled from the spec: `updateKeys()` from the missing `keys.js`,
applying the per-frame bookkeeping to every tracked key. -/
def updateKeys (k : Keys) : Keys :=
  { keyUp := bumpKey k.keyUp
    keyDown := bumpKey k.keyDown
    keyLeft := bumpKey k.keyLeft
    keyRight := bumpKey k.keyRight
    keyW := bumpKey k.keyW
    keyA := bumpKey k.keyA
    keyS := bumpKey k.keyS
    keyD := bumpKey k.keyD
    keyZ := bumpKey k.keyZ
    keyQ := bumpKey k.keyQ
    keyM := bumpKey k.keyM
    keyEscape := bumpKey k.keyEscape
    keySpace := bumpKey k.keySpace }

/-- The environment's trigonometric primitives (`Math.cos` / `Math.sin`),
passed explicitly wherever the client code calls them. -/
structure Trig where
  cos : ℚ → ℚ
  sin : ℚ → ℚ

/-- A 3-vector, as used by the gl-matrix `vec3` helpers. -/
structure Vec3 where
  x : ℚ
  y : ℚ
  z : ℚ
deriving DecidableEq

/-- gl-matrix `vec3.rotateX(out, a, origin, rad)`: rotation about the
x-axis through the origin. -/
def rotateX (t : Trig) (p : Vec3) (rad : ℚ) : Vec3 :=
  { x := p.x
    y := p.y * t.cos rad - p.z * t.sin rad
    z := p.y * t.sin rad + p.z * t.cos rad }

/-- gl-matrix `vec3.rotateY(out, a, origin, rad)`: rotation about the
y-axis through the origin. -/
def rotateY (t : Trig) (p : Vec3) (rad : ℚ) : Vec3 :=
  { x := p.z * t.sin rad + p.x * t.cos rad
    y := p.y
    z := p.z * t.cos rad - p.x * t.sin rad }

/-- Modelled from the spec: the fixed forward axis used to derive aim and
movement directions (the constants file is not under `src/`). -/
def forward : Vec3 := { x := 0, y := 0, z := -1 }

/-- Modelled from the spec: fixed run speed (constant not under `src/`). -/
def RUN_SPEED : ℚ := 20

/-- Modelled from the spec: gravity constant (not under `src/`). -/
def GRAVITY : ℚ := 30

/-- Modelled from the spec: half the player's height (not under `src/`). -/
def PLAYER_HALF_HEIGHT : ℚ := 1

/-- Modelled from the spec: fixed jump impulse (not under `src/`). -/
def JUMP_POWER : ℚ := 10

/-- Modelled from the spec: the reserved game id denoting the lobby. -/
def LOBBY_ID : ℤ := 0

/-- Closed enumeration of entity type tags used by the client. -/
inductive EntityType where
  | PLAYER
  | JOIN
  | SHOOT
deriving DecidableEq

/-- A game entity as constructed by `new GameEntity(type, x, y, z, dx, dy, dz)`;
orientation fields default to zero and are set separately. -/
structure GameEntity where
  etype : EntityType
  x : ℚ
  y : ℚ
  z : ℚ
  dx : ℚ
  dy : ℚ
  dz : ℚ
  pitch : ℚ := 0
  yaw : ℚ := 0
deriving DecidableEq

/-- The locally controlled player entity: pose, velocity, orientation, the
display name and the pending outgoing action queue. -/
structure Player where
  x : ℚ
  y : ℚ
  z : ℚ
  dx : ℚ
  dy : ℚ
  dz : ℚ
  pitch : ℚ
  yaw : ℚ
  name : String
  actions : List GameEntity
deriving DecidableEq

/-- Modelled from the spec: the authoritative snapshot class
(`ServerGameState` is not under `src/`): game id, seed, started flag,
alive count, whether the snapshot reports the local player alive, and the
full entity list. -/
structure ServerGameState where
  gameId : ℤ
  seed : ℤ
  started : Bool
  aliveCount : ℕ
  currentPlayerAlive : Bool
  entities : List GameEntity
deriving DecidableEq

/-- `ServerGameState.isStarted`. -/
def ServerGameState.isStarted (g : ServerGameState) : Bool := g.started

/-- `ServerGameState.isCurrentPlayerAlive`. -/
def ServerGameState.isCurrentPlayerAlive (g : ServerGameState) : Bool :=
  g.currentPlayerAlive

/-- `ServerGameState.getAliveCount`. -/
def ServerGameState.getAliveCount (g : ServerGameState) : ℕ := g.aliveCount

/-- Modelled from the spec: seed normalization on construction
(out-of-range seeds are normalized, not rejected). -/
def normalizeSeed (s : ℤ) : ℕ := s.toNat % 2 ^ 32

/-- Modelled from the spec: a linear congruential mixer standing in for the
procedural generator of the missing `map.js`. -/
def lcg (n : ℕ) : ℕ := (1664525 * n + 1013904223) % 2 ^ 32

/-- Modelled from the spec: the procedural world map (`GameMap` is not
under `src/`), derived deterministically from the seed and holding no
other state. -/
structure GameMap where
  seed : ℕ
deriving DecidableEq

/-- Modelled from the spec: `new GameMap(seed)`, a pure function of the
seed. -/
def GameMap.create (seed : ℤ) : GameMap := { seed := normalizeSeed seed }

/-- Modelled from the spec: the ground-height query `gameMap.getY(x, z)`,
defined for all finite queries and depending only on the seed and the
queried coordinates.  Heights land in `[0, 32)`. -/
def GameMap.getY (m : GameMap) (x z : ℚ) : ℚ :=
  ((lcg (m.seed + ((⌊x⌋ + 37 * ⌊z⌋).emod 64).toNat) % 32 : ℕ) : ℚ)

/-- Modelled from the spec: the prerendered overview image, a fixed grid of
height samples computed once from the height field. -/
def GameMap.overviewImage (m : GameMap) : List (List ℚ) :=
  (List.range 8).map (fun r => (List.range 8).map (fun c => m.getY (c : ℚ) (r : ℚ)))

/-- One record of a geometry buffer set: either the geometry of one entity
or the translucent blue circle-wall overlay. -/
inductive GeomEntry where
  | entity (e : GameEntity)
  | blueCircle
deriving DecidableEq

/-- Modelled from the spec: `renderEntities` appends one geometry record
per entity, in list order, to the dynamic buffer set (`BufferSet` and
`renderEntities` are not under `src/`). -/
def entityEntries (es : List GameEntity) : List GeomEntry :=
  es.map GeomEntry.entity

/-- The module-level mutable client state of `client.js`. -/
structure ClientState where
  player : Player
  localEntities : List GameEntity
  gameState : Option ServerGameState
  gameMap : Option GameMap
  keys : Keys
  mapOpen : Bool
  pointerLocked : Bool
  zoom : Bool
  zoomLevel : ℤ
  staticBuffers : List GeomEntry
  dynamicBuffers : List GeomEntry
  mouseX : ℚ
  mouseY : ℚ
deriving DecidableEq

/-- The `socket.on` update handler: stores the received snapshot. -/
def socketOnUpdate (s : ClientState) (g : ServerGameState) : ClientState :=
  { s with gameState := some g }

/-- Guard of the forward intent: `keys[KEY_UP].down || keys[KEY_W].down ||
keys[KEY_Z].down`. -/
def upHeld (k : Keys) : Bool := k.keyUp.down || k.keyW.down || k.keyZ.down

/-- Guard of the backward intent: `keys[KEY_DOWN].down || keys[KEY_S].down`. -/
def downHeld (k : Keys) : Bool := k.keyDown.down || k.keyS.down

/-- Guard of the strafe-left intent: `keys[KEY_LEFT].down || keys[KEY_A].down ||
keys[KEY_Q].down`. -/
def leftHeld (k : Keys) : Bool := k.keyLeft.down || k.keyA.down || k.keyQ.down

/-- Guard of the strafe-right intent: `keys[KEY_RIGHT].down || keys[KEY_D].down`. -/
def rightHeld (k : Keys) : Bool := k.keyRight.down || k.keyD.down

/-- How many of the four movement-intent branches of `handleKeys` fire. -/
def heldGroups (k : Keys) : ℕ :=
  (if upHeld k then 1 else 0) + (if downHeld k then 1 else 0)
    + (if leftHeld k then 1 else 0) + (if rightHeld k then 1 else 0)

/-- The movement-intent section of `handleKeys` (client.js lines 285-310):
zero `dx`/`dz`, then run the four guarded branches in source order, each of
which overwrites `dx`/`dz` with the yaw-rotated run velocity and
additionally subtracts `0.02` from `dy`. -/
def applyIntents (t : Trig) (k : Keys) (p : Player) : Player :=
  let tv := rotateY t forward p.yaw
  let p0 := { p with dx := 0, dz := 0 }
  let p1 := if upHeld k then
      { p0 with dx := RUN_SPEED * tv.x, dz := RUN_SPEED * tv.z, dy := p0.dy - 1/50 }
    else p0
  let p2 := if downHeld k then
      { p1 with dx := -RUN_SPEED * tv.x, dz := -RUN_SPEED * tv.z, dy := p1.dy - 1/50 }
    else p1
  let p3 := if leftHeld k then
      { p2 with dx := -RUN_SPEED * tv.z, dz := RUN_SPEED * tv.x, dy := p2.dy - 1/50 }
    else p2
  let p4 := if rightHeld k then
      { p3 with dx := RUN_SPEED * tv.z, dz := -RUN_SPEED * tv.x, dy := p3.dy - 1/50 }
    else p3
  p4

/-- The map-toggle section of `handleKeys` (client.js lines 311-317). -/
def mapToggle (k : Keys) (mo : Bool) : Bool :=
  if k.keyM.downCount = 1 || (mo && k.keyEscape.downCount = 1) then !mo else mo

/-- The integration section of `handleKeys` (client.js lines 319-323):
horizontal position, then gravity on `dy`, then vertical position with the
already-updated `dy`. -/
def integrate (dt : ℚ) (p : Player) : Player :=
  let p1 := { p with x := p.x + dt * p.dx, z := p.z + dt * p.dz }
  let p2 := { p1 with dy := p1.dy - dt * GRAVITY }
  { p2 with y := p2.y + dt * p2.dy }

/-- The ground-collision section of `handleKeys` (client.js lines 325-333):
if the feet are below ground at the new coordinates, zero `dy` and clamp
`y` to ground level plus half-height; a jump edge (`downCount === 1` on
space) then replaces the zeroed `dy` with the jump impulse. -/
def groundClamp (m : GameMap) (k : Keys) (p : Player) : Player :=
  if p.y < m.getY p.x p.z + PLAYER_HALF_HEIGHT then
    let q := { p with dy := 0, y := m.getY p.x p.z + PLAYER_HALF_HEIGHT }
    if k.keySpace.downCount = 1 then { q with dy := JUMP_POWER } else q
  else p

/-- `handleKeys(deltaTime)`: the local prediction step.  A missing map makes
it a no-op; otherwise it refreshes the key table, applies movement intents,
toggles the map overlay, integrates and resolves ground collision. -/
def handleKeys (t : Trig) (dt : ℚ) (s : ClientState) : ClientState :=
  match s.gameMap with
  | none => s
  | some m =>
      { s with
        keys := updateKeys s.keys
        mapOpen := mapToggle (updateKeys s.keys) s.mapOpen
        player := groundClamp m (updateKeys s.keys)
          (integrate dt (applyIntents t (updateKeys s.keys) s.player)) }

/-- The in-match section of `render` (client.js lines 214-236): reset the
dynamic buffer set, append the snapshot entities then the local entities
then (only once the match is started) the translucent blue circle wall,
and issue the draw pass static-first.  Returns the new client state and
the flattened sequence of issued geometry. -/
def renderScene (s : ClientState) : ClientState × List GeomEntry :=
  match s.gameState with
  | none => (s, [])
  | some g =>
      if g.gameId ≠ LOBBY_ID then
        let dyn := entityEntries g.entities ++ entityEntries s.localEntities
          ++ (if g.isStarted then [GeomEntry.blueCircle] else [])
        ({ s with dynamicBuffers := dyn }, s.staticBuffers ++ dyn)
      else (s, [])

/-- Modelled from the spec: a rational stand-in for the full turn `2*pi`
used by the missing `normalizeRadians` helper (the client computes in
floating-point radians). -/
def twoPi : ℚ := 710 / 113

/-- Modelled from the spec: `normalizeRadians`, wrapping an angle into the
canonical range `[0, twoPi)`. -/
def normalizeRadians (x : ℚ) : ℚ := x - twoPi * ⌊x / twoPi⌋

/-- Membership in the canonical normalized radian range. -/
def inCanonicalRange (x : ℚ) : Prop := 0 ≤ x ∧ x < twoPi

instance (x : ℚ) : Decidable (inCanonicalRange x) := by
  unfold inCanonicalRange
  infer_instance

/-- The pointer sensitivity chosen by `handleMouseMoveEvent`:
`zoom ? 0.0001 : 0.001`. -/
def mouseSensitivity (zoom : Bool) : ℚ := if zoom then 1/10000 else 1/1000

/-- `handleMouseMoveEvent` (client.js lines 272-276): captured-pointer
movement, scaled by the zoom-dependent sensitivity and normalized. -/
def handleMouseMoveEvent (s : ClientState) (mx my : ℚ) : ClientState :=
  { s with player := { s.player with
      yaw := normalizeRadians (s.player.yaw + mouseSensitivity s.zoom * mx)
      pitch := normalizeRadians (s.player.pitch + mouseSensitivity s.zoom * my) } }

/-- The pitch clamp bound of the bridge's camera handler:
`Math.PI / 2 - 0.1` over the rational stand-in for `pi`. -/
def maxPitch : ℚ := twoPi / 4 - 1/10

/-- `handleCameraMove(deltaX, deltaY)` from the mobile bridge: adds the
scaled deltas to yaw and pitch, then clamps pitch (and only pitch) into
`[-maxPitch, maxPitch]`. -/
def handleCameraMove (s : ClientState) (dx dy : ℚ) : ClientState :=
  { s with player := { s.player with
      yaw := s.player.yaw + 1/500 * dx
      pitch := max (-maxPitch) (min maxPitch (s.player.pitch + 1/500 * dy)) } }

/-- The normalized aim direction used by `createClientEvent`: the fixed
forward axis rotated by pitch about x, then by yaw about y. -/
def aimDir (t : Trig) (pitch yaw : ℚ) : Vec3 :=
  rotateY t (rotateX t forward pitch) yaw

/-- `createClientEvent(eventType)` (client.js lines 126-137): push a new
action entity carrying the current position and the aim direction onto the
local entity's pending-action queue. -/
def createClientEvent (t : Trig) (e : EntityType) (p : Player) : Player :=
  let v := aimDir t p.pitch p.yaw
  { p with actions := p.actions ++
      [{ etype := e, x := p.x, y := p.y, z := p.z, dx := v.x, dy := v.y, dz := v.z }] }

/-- The guard of `shoot` (client.js line 108): suppress only when a
snapshot exists and does not report the local player alive. -/
def shootGuard (og : Option ServerGameState) : Bool :=
  match og with
  | none => false
  | some g => !g.isCurrentPlayerAlive

/-- `shoot()` (client.js lines 106-120): guarded fire, queuing a SHOOT
action and applying random recoil `r1, r2` (each drawn from `[0, 1)`) to
pitch and yaw. -/
def shoot (t : Trig) (r1 r2 : ℚ) (s : ClientState) : ClientState :=
  if shootGuard s.gameState then s
  else
    let p := createClientEvent t EntityType.SHOOT s.player
    { s with player :=
        { p with pitch := p.pitch - 1/50 * r1, yaw := p.yaw + (1/50 * r2 - 1/100) } }

/-- The mobile bridge's own state: the mobile flag, the joystick sample,
and the shared key table it writes through `window.keys`. -/
structure BridgeState where
  isMobile : Bool
  joystickAngle : ℚ
  joystickForce : ℚ
  joystickActive : Bool
  keys : Keys
deriving DecidableEq

/-- The bridge messages received from the wrapper. -/
inductive BridgeMsg where
  | enablePointerLock (mobile : Bool)
  | joystickMove (angle force : ℚ)
  | joystickEnd
  | cameraMove (dx dy : ℚ)
  | shootMsg
  | jump

/-- `handleJoystickMovement()` from the bridge: when the joystick is
active, clear the four movement keys, then assert those whose axis
component exceeds the 0.3 threshold. -/
def handleJoystickMovement (t : Trig) (b : BridgeState) : BridgeState :=
  if !b.joystickActive then b
  else
    let moveX := t.cos b.joystickAngle * b.joystickForce
    let moveY := t.sin b.joystickAngle * b.joystickForce
    let k := b.keys
    let k := { k with
      keyW := { k.keyW with down := false }
      keyS := { k.keyS with down := false }
      keyA := { k.keyA with down := false }
      keyD := { k.keyD with down := false } }
    let k := if moveY < -3/10 then { k with keyW := { k.keyW with down := true } } else k
    let k := if moveY > 3/10 then { k with keyS := { k.keyS with down := true } } else k
    let k := if moveX < -3/10 then { k with keyA := { k.keyA with down := true } } else k
    let k := if moveX > 3/10 then { k with keyD := { k.keyD with down := true } } else k
    { b with keys := k }

/-- The bridge's message listener.  `CAMERA_MOVE` and `SHOOT` act on the
client state (modelled by `handleCameraMove` and `shoot`) and leave the
bridge's own state untouched; `JUMP` forces a jump edge on the space key. -/
def bridgeStep (t : Trig) (b : BridgeState) (m : BridgeMsg) : BridgeState :=
  match m with
  | BridgeMsg.enablePointerLock mob => { b with isMobile := mob }
  | BridgeMsg.joystickMove a f =>
      handleJoystickMovement t
        { b with joystickActive := true, joystickAngle := a, joystickForce := f }
  | BridgeMsg.joystickEnd => { b with joystickActive := false, joystickForce := 0 }
  | BridgeMsg.cameraMove _ _ => b
  | BridgeMsg.shootMsg => b
  | BridgeMsg.jump => { b with keys :=
      { b.keys with keySpace := { b.keys.keySpace with downCount := 1 } } }

/-- The claim-side specification of the horizontal velocity produced by one
prediction step, written after the spec's words: the last-applied held
direction wins, the precedence order being forward, backward, left, right,
and with no intent held the horizontal velocity is zero. -/
def hvelSpec (t : Trig) (k : Keys) (yaw : ℚ) : ℚ × ℚ :=
  let tv := rotateY t forward yaw
  if rightHeld k then (RUN_SPEED * tv.z, -RUN_SPEED * tv.x)
  else if leftHeld k then (-RUN_SPEED * tv.z, RUN_SPEED * tv.x)
  else if downHeld k then (-RUN_SPEED * tv.x, -RUN_SPEED * tv.z)
  else if upHeld k then (RUN_SPEED * tv.x, RUN_SPEED * tv.z)
  else (0, 0)

/-- `MAX_ZOOM_LEVEL` (client.js line 39). -/
def MAX_ZOOM_LEVEL : ℤ := 3

/-- The input events that touch the zoom state: right-button down and up
(client.js lines 139-149) and the iframe `toggleZoom` (lines 152-155). -/
inductive ZoomEvent where
  | rightDown
  | rightUp
  | toggle

/-- The zoom-related client state: the boolean zoom hold and the integer
zoom level declared at client.js lines 37-38. -/
structure ZoomState where
  zoom : Bool
  zoomLevel : ℤ
deriving DecidableEq

/-- The initial zoom state: `zoom = false`, `zoomLevel = 0`. -/
def zoomInit : ZoomState := { zoom := false, zoomLevel := 0 }

/-- One zoom-affecting event; no event path writes `zoomLevel`. -/
def zoomStep (zs : ZoomState) (e : ZoomEvent) : ZoomState :=
  match e with
  | ZoomEvent.rightDown => { zs with zoom := true }
  | ZoomEvent.rightUp => { zs with zoom := false }
  | ZoomEvent.toggle => { zs with zoom := !zs.zoom }

/-- The zoom state reached from startup by a sequence of zoom events. -/
def zoomRun (es : List ZoomEvent) : ZoomState := es.foldl zoomStep zoomInit

/-- Ordering of zoom states: `a` is strictly more zoomed than `b`. -/
def moreZoomedThan (a b : Bool) : Prop := a = true ∧ b = false

/-- A trig record adequate for evaluating the embedding at angle zero,
where the cosine is `1` and the sine is `0`. -/
def trigAtZero : Trig := { cos := fun _ => 1, sin := fun _ => 0 }

/-- A key slot that is up with no pending edge. -/
def ks0 : KeyState := { down := false, downCount := 0 }

/-- A key table with every key up. -/
def keysInit : Keys :=
  { keyUp := ks0, keyDown := ks0, keyLeft := ks0, keyRight := ks0, keyW := ks0
    keyA := ks0, keyS := ks0, keyD := ks0, keyZ := ks0, keyQ := ks0, keyM := ks0
    keyEscape := ks0, keySpace := ks0 }

/-- A key table with only the W key held (forward intent). -/
def keysWDown : Keys := { keysInit with keyW := { down := true, downCount := 0 } }

/-- A concrete local player used to evaluate the step functions. -/
def basePlayer : Player :=
  { x := 0, y := 0, z := 0, dx := 0, dy := 0, dz := 0, pitch := 1/10, yaw := 1/10
    name := "p", actions := [] }

/-- A concrete client state with an active map and no snapshot yet. -/
def baseState : ClientState :=
  { player := basePlayer, localEntities := [], gameState := none
    gameMap := some (GameMap.create 42), keys := keysInit, mapOpen := false
    pointerLocked := false, zoom := false, zoomLevel := 0, staticBuffers := []
    dynamicBuffers := [], mouseX := 0, mouseY := 0 }

/-- A client state holding the forward key, far above the ground. -/
def sC2 : ClientState :=
  { baseState with player := { basePlayer with y := 1000 }, keys := keysWDown }

/-- The post-integration player of the grounded evaluation of `handleKeys`
on `baseState` with elapsed time zero. -/
def pW1 : Player :=
  integrate 0 (applyIntents trigAtZero (updateKeys baseState.keys) baseState.player)

/-- A concrete remote entity carried by a snapshot. -/
def eRemote : GameEntity :=
  { etype := EntityType.PLAYER, x := 1, y := 2, z := 3, dx := 0, dy := 0, dz := 0 }

/-- A concrete locally predicted entity. -/
def eLocal : GameEntity :=
  { etype := EntityType.SHOOT, x := 4, y := 5, z := 6, dx := 0, dy := -1, dz := 0 }

/-- A concrete started non-lobby snapshot with one remote entity. -/
def g4 : ServerGameState :=
  { gameId := 1, seed := 7, started := true, aliveCount := 2
    currentPlayerAlive := true, entities := [eRemote] }

/-- A client state holding the snapshot `g4`, one local entity and one
static geometry record. -/
def s4 : ClientState :=
  { baseState with
      gameState := some g4,
      localEntities := [eLocal],
      staticBuffers := [GeomEntry.entity eRemote] }

/-- A snapshot that reports the local player dead. -/
def g10 : ServerGameState :=
  { gameId := 1, seed := 7, started := true, aliveCount := 1
    currentPlayerAlive := false, entities := [] }

/-- A client state holding the dead-player snapshot `g10`. -/
def s10b : ClientState := { baseState with gameState := some g10 }

/-- The initial state of the mobile bridge. -/
def bridgeInit : BridgeState :=
  { isMobile := false, joystickAngle := 0, joystickForce := 0
    joystickActive := false, keys := keysInit }

/-- C3: processing one inbound state-update event replaces the stored
snapshot reference wholesale with the received snapshot and changes no
other part of the client state: the local entity (position, orientation,
pending-action queue), the input intent table, and the static and dynamic
buffer sets are all unchanged. -/
theorem snapshot_replace_wholesale (s : ClientState) (g : ServerGameState) :
    (socketOnUpdate s g).gameState = some g ∧
    (socketOnUpdate s g).player = s.player ∧
    (socketOnUpdate s g).localEntities = s.localEntities ∧
    (socketOnUpdate s g).gameMap = s.gameMap ∧
    (socketOnUpdate s g).keys = s.keys ∧
    (socketOnUpdate s g).mapOpen = s.mapOpen ∧
    (socketOnUpdate s g).pointerLocked = s.pointerLocked ∧
    (socketOnUpdate s g).zoom = s.zoom ∧
    (socketOnUpdate s g).zoomLevel = s.zoomLevel ∧
    (socketOnUpdate s g).staticBuffers = s.staticBuffers ∧
    (socketOnUpdate s g).dynamicBuffers = s.dynamicBuffers ∧
    (socketOnUpdate s g).mouseX = s.mouseX ∧
    (socketOnUpdate s g).mouseY = s.mouseY :=
  ⟨rfl, rfl, rfl, rfl, rfl, rfl, rfl, rfl, rfl, rfl, rfl, rfl, rfl⟩

/-- C7: one prediction step zeroes the horizontal velocity and then sets it
from the held movement intents, each scaled by the run speed and rotated by
the current yaw, with the last-applied direction winning under the
precedence forward, backward, left, right. -/
theorem horizontal_velocity_precedence (t : Trig) (k : Keys) (p : Player) :
    ((applyIntents t k p).dx, (applyIntents t k p).dz) = hvelSpec t k p.yaw := by
  cases hU : upHeld k <;> cases hD : downHeld k <;> cases hL : leftHeld k <;>
    cases hR : rightHeld k <;>
      simp [applyIntents, hvelSpec, hU, hD, hL, hR]

/-- C2 (amended): before the ground clamp, the vertical velocity of one
prediction step changes by the gravity term and additionally by `-0.02`
for each held movement-intent branch; only with no movement intent held
is the change exactly `-gravity * dt`. -/
theorem dy_gravity_and_intent_dips (t : Trig) (dt : ℚ) (k : Keys) (p : Player) :
    (integrate dt (applyIntents t k p)).dy
      = p.dy - (heldGroups k : ℚ) * (1/50) - GRAVITY * dt := by
  cases hU : upHeld k <;> cases hD : downHeld k <;> cases hL : leftHeld k <;>
    cases hR : rightHeld k <;>
      simp [integrate, applyIntents, heldGroups, hU, hD, hL, hR] <;> ring

/-- C2 (counterexample): with the forward key held, the pre-clamp vertical
velocity of a step does not equal the previous value minus the gravity
term: the movement branch subtracts an extra `0.02`. -/
theorem gravity_only_dy_refuted :
    (integrate (1/10) (applyIntents trigAtZero (updateKeys sC2.keys) sC2.player)).dy
      ≠ sC2.player.dy - GRAVITY * (1/10) := by
  simp only [integrate, applyIntents, updateKeys, bumpKey, sC2, baseState, basePlayer,
    keysWDown, keysInit, ks0, upHeld, downHeld, leftHeld, rightHeld, trigAtZero,
    GRAVITY, RUN_SPEED, forward, rotateY]
  norm_num

/-- C5: two world maps independently constructed from the same seed return
equal ground heights at every queried point and the same overview image;
construction and the height query depend only on the seed. -/
theorem map_seed_determinism (seed : ℤ) (x z : ℚ) (m₁ m₂ : GameMap)
    (h₁ : m₁ = GameMap.create seed) (h₂ : m₂ = GameMap.create seed) :
    m₁.getY x z = m₂.getY x z ∧ m₁.overviewImage = m₂.overviewImage := by
  subst h₁; subst h₂; exact ⟨rfl, rfl⟩

/-- C5 witness: evaluation at seed 42 and the origin. -/
theorem map_seed_determinism_witness :
    (GameMap.create 42).getY 0 0 = (GameMap.create 42).getY 0 0 ∧
    (GameMap.create 42).overviewImage = (GameMap.create 42).overviewImage :=
  map_seed_determinism 42 0 0 (GameMap.create 42) (GameMap.create 42) rfl rfl

/-- No zoom event ever writes the zoom level; it stays at its initial 0. -/
theorem zoomRun_level (es : List ZoomEvent) : (zoomRun es).zoomLevel = 0 := by
  have h : ∀ (l : List ZoomEvent) (zs : ZoomState),
      (l.foldl zoomStep zs).zoomLevel = zs.zoomLevel := by
    intro l
    induction l with
    | nil => intro zs; rfl
    | cons e l ih =>
        intro zs
        rw [List.foldl_cons, ih]
        cases e <;> rfl
  exact h es zoomInit

/-- C9: in every reachable zoom state the zoom level is an integer inside
`[0, MAX_ZOOM_LEVEL]`, and of two zoom states the more zoomed one applies
a strictly smaller pointer sensitivity. -/
theorem zoom_bounds_sensitivity (es : List ZoomEvent) (z₁ z₂ : Bool)
    (h : moreZoomedThan z₁ z₂) :
    (0 ≤ (zoomRun es).zoomLevel ∧ (zoomRun es).zoomLevel ≤ MAX_ZOOM_LEVEL) ∧
    mouseSensitivity z₁ < mouseSensitivity z₂ := by
  obtain ⟨h₁, h₂⟩ := h
  subst h₁
  subst h₂
  refine ⟨⟨?_, ?_⟩, ?_⟩
  · simp [zoomRun_level]
  · simp [zoomRun_level, MAX_ZOOM_LEVEL]
  · norm_num [mouseSensitivity]

/-- C9 witness: evaluation after one zoom toggle. -/
theorem zoom_bounds_sensitivity_witness :
    (0 ≤ (zoomRun [ZoomEvent.toggle]).zoomLevel ∧
      (zoomRun [ZoomEvent.toggle]).zoomLevel ≤ MAX_ZOOM_LEVEL) ∧
    mouseSensitivity true < mouseSensitivity false :=
  zoom_bounds_sensitivity [ZoomEvent.toggle] true false ⟨rfl, rfl⟩

/-- The wrapped angle always lands in the canonical range `[0, twoPi)`. -/
theorem normalizeRadians_bounds (x : ℚ) :
    0 ≤ normalizeRadians x ∧ normalizeRadians x < twoPi := by
  have hT : (0 : ℚ) < twoPi := by norm_num [twoPi]
  have hT0 : (twoPi : ℚ) ≠ 0 := hT.ne'
  have h : normalizeRadians x = twoPi * Int.fract (x / twoPi) := by
    unfold normalizeRadians Int.fract
    field_simp
  constructor
  · rw [h]
    exact mul_nonneg hT.le (Int.fract_nonneg _)
  · rw [h]
    calc twoPi * Int.fract (x / twoPi) < twoPi * 1 :=
          mul_lt_mul_of_pos_left (Int.fract_lt_one _) hT
      _ = twoPi := mul_one _

/-- C8 (counterexample): a bridge camera-move from the initial pose with
`deltaX = 100000` leaves yaw at `200.1`, outside the canonical normalized
radian range — the bridge handler does not wrap yaw. -/
theorem camera_move_yaw_unwrapped :
    (handleCameraMove baseState 100000 0).player.yaw = 2001/10 ∧
    ¬ inCanonicalRange ((handleCameraMove baseState 100000 0).player.yaw) := by
  constructor
  · norm_num [handleCameraMove, baseState, basePlayer]
  · simp only [handleCameraMove, baseState, basePlayer, inCanonicalRange, twoPi]
    norm_num

/-- C8 (amended): only the captured-pointer mouse handler normalizes both
pitch and yaw into the canonical range; the bridge camera handler clamps
pitch into `[-maxPitch, maxPitch]` while leaving yaw unwrapped, and fire
recoil applies raw offsets. -/
theorem orientation_wrap_amended (s : ClientState) (mx my dx dy : ℚ) :
    inCanonicalRange ((handleMouseMoveEvent s mx my).player.yaw) ∧
    inCanonicalRange ((handleMouseMoveEvent s mx my).player.pitch) ∧
    -maxPitch ≤ (handleCameraMove s dx dy).player.pitch ∧
    (handleCameraMove s dx dy).player.pitch ≤ maxPitch := by
  refine ⟨?_, ?_, ?_, ?_⟩
  · simpa [handleMouseMoveEvent, inCanonicalRange] using
      normalizeRadians_bounds (s.player.yaw + mouseSensitivity s.zoom * mx)
  · simpa [handleMouseMoveEvent, inCanonicalRange] using
      normalizeRadians_bounds (s.player.pitch + mouseSensitivity s.zoom * my)
  · simp only [handleCameraMove]
    exact le_max_left _ _
  · simp only [handleCameraMove]
    apply max_le
    · norm_num [maxPitch, twoPi]
    · exact min_le_left _ _

/-- C6 (evaluation at the failing input): `JOYSTICK_MOVE` with angle 0 and
force 1 asserts exactly the right-movement key and no opposing key, and the
following `JOYSTICK_END` zeroes the joystick force and deactivates the
joystick but leaves the right-movement key asserted — the movement intents
derived from the joystick are not deasserted on release. -/
theorem joystick_end_leaves_keys :
    ((bridgeStep trigAtZero bridgeInit (BridgeMsg.joystickMove 0 1)).keys.keyD.down = true ∧
      (bridgeStep trigAtZero bridgeInit (BridgeMsg.joystickMove 0 1)).keys.keyW.down = false ∧
      (bridgeStep trigAtZero bridgeInit (BridgeMsg.joystickMove 0 1)).keys.keyS.down = false ∧
      (bridgeStep trigAtZero bridgeInit (BridgeMsg.joystickMove 0 1)).keys.keyA.down = false) ∧
    ((bridgeStep trigAtZero (bridgeStep trigAtZero bridgeInit
        (BridgeMsg.joystickMove 0 1)) BridgeMsg.joystickEnd).joystickForce = 0 ∧
      (bridgeStep trigAtZero (bridgeStep trigAtZero bridgeInit
        (BridgeMsg.joystickMove 0 1)) BridgeMsg.joystickEnd).joystickActive = false ∧
      (bridgeStep trigAtZero (bridgeStep trigAtZero bridgeInit
        (BridgeMsg.joystickMove 0 1)) BridgeMsg.joystickEnd).keys.keyD.down = true) := by
  norm_num [bridgeStep, handleJoystickMovement, bridgeInit, keysInit, ks0, trigAtZero]

/-- C4: with a non-lobby snapshot present, one rendered frame rebuilds the
dynamic buffer set from scratch as the snapshot entities, then the local
entities, then (only once started) the translucent blue circle wall; the
draw pass issues static geometry before dynamic geometry, so the
translucent overlay is issued last of all. -/
theorem dynamic_rebuild_order (s : ClientState) (g : ServerGameState)
    (hs : s.gameState = some g) (hid : g.gameId ≠ LOBBY_ID) :
    (renderScene s).1.dynamicBuffers
        = entityEntries g.entities ++ entityEntries s.localEntities
          ++ (if g.isStarted then [GeomEntry.blueCircle] else []) ∧
    (renderScene s).2 = s.staticBuffers ++ (renderScene s).1.dynamicBuffers ∧
    (g.isStarted = true → (renderScene s).2.getLast? = some GeomEntry.blueCircle) := by
  refine ⟨?_, ?_, ?_⟩
  · simp [renderScene, hs, hid]
  · simp [renderScene, hs, hid]
  · intro hst
    simp only [renderScene, hs, hid, hst, ne_eq, not_false_iff, if_true, if_pos]
    rw [← List.append_assoc]
    exact List.getLast?_concat _

/-- C4 witness: evaluation on a state with one remote entity, one local
entity, one static record and a started snapshot. -/
theorem dynamic_rebuild_order_witness :
    (renderScene s4).1.dynamicBuffers
        = entityEntries g4.entities ++ entityEntries s4.localEntities
          ++ (if g4.isStarted then [GeomEntry.blueCircle] else []) ∧
    (renderScene s4).2 = s4.staticBuffers ++ (renderScene s4).1.dynamicBuffers ∧
    (g4.isStarted = true → (renderScene s4).2.getLast? = some GeomEntry.blueCircle) :=
  dynamic_rebuild_order s4 g4 rfl (by norm_num [g4, LOBBY_ID])

/-- C10: with no snapshot stored, firing still queues a SHOOT action
capturing the current position and aim direction and applies recoil to
pitch and yaw; the not-alive guard suppresses firing exactly when a
snapshot exists and does not report the local player alive. -/
theorem shoot_without_snapshot (t : Trig) (r1 r2 : ℚ) (s sb : ClientState)
    (g : ServerGameState) (hn : s.gameState = none)
    (hb : sb.gameState = some g) (ha : g.currentPlayerAlive = false) :
    (shoot t r1 r2 s).player.actions
        = s.player.actions ++
          [{ etype := EntityType.SHOOT, x := s.player.x, y := s.player.y,
             z := s.player.z,
             dx := (aimDir t s.player.pitch s.player.yaw).x,
             dy := (aimDir t s.player.pitch s.player.yaw).y,
             dz := (aimDir t s.player.pitch s.player.yaw).z }] ∧
    (shoot t r1 r2 s).player.pitch = s.player.pitch - 1/50 * r1 ∧
    (shoot t r1 r2 s).player.yaw = s.player.yaw + (1/50 * r2 - 1/100) ∧
    shoot t r1 r2 sb = sb := by
  have hg : shootGuard s.gameState = false := by rw [hn]; rfl
  have hgb : shootGuard sb.gameState = true := by
    rw [hb]
    simp [shootGuard, ServerGameState.isCurrentPlayerAlive, ha]
  refine ⟨?_, ?_, ?_, ?_⟩ <;> simp [shoot, hg, hgb, createClientEvent]

/-- C10 witness: evaluation on the snapshot-free base state and on a state
whose snapshot reports the player dead. -/
theorem shoot_without_snapshot_witness :
    (shoot trigAtZero 0 0 baseState).player.actions
        = baseState.player.actions ++
          [{ etype := EntityType.SHOOT, x := baseState.player.x,
             y := baseState.player.y, z := baseState.player.z,
             dx := (aimDir trigAtZero baseState.player.pitch baseState.player.yaw).x,
             dy := (aimDir trigAtZero baseState.player.pitch baseState.player.yaw).y,
             dz := (aimDir trigAtZero baseState.player.pitch baseState.player.yaw).z }] ∧
    (shoot trigAtZero 0 0 baseState).player.pitch = baseState.player.pitch - 1/50 * 0 ∧
    (shoot trigAtZero 0 0 baseState).player.yaw
        = baseState.player.yaw + (1/50 * 0 - 1/100) ∧
    shoot trigAtZero 0 0 s10b = s10b :=
  shoot_without_snapshot trigAtZero 0 0 baseState s10b g10 rfl rfl rfl

/-- C1: when, after integration, the feet are below the ground height at
the new coordinates, the step ends with `y` exactly at ground level plus
half-height and vertical velocity zero — unless the jump intent has
down-transition count one this frame, in which case vertical velocity is
the fixed jump impulse; and a jump intent already held on the previous
frame cannot produce a second impulse. -/
theorem update_ground_clamp_jump_edge (t : Trig) (dt : ℚ) (s : ClientState)
    (m : GameMap) (k : Keys) (p : Player)
    (hm : s.gameMap = some m) (hk : k = updateKeys s.keys)
    (hp : p = integrate dt (applyIntents t k s.player))
    (hg : p.y < m.getY p.x p.z + PLAYER_HALF_HEIGHT) :
    (handleKeys t dt s).player.y = m.getY p.x p.z + PLAYER_HALF_HEIGHT ∧
    (k.keySpace.downCount ≠ 1 → (handleKeys t dt s).player.dy = 0) ∧
    (k.keySpace.downCount = 1 → (handleKeys t dt s).player.dy = JUMP_POWER) ∧
    (s.keys.keySpace.down = true → 1 ≤ s.keys.keySpace.downCount →
      (handleKeys t dt s).player.dy = 0) := by
  subst hk
  subst hp
  have hplayer : (handleKeys t dt s).player
      = groundClamp m (updateKeys s.keys)
          (integrate dt (applyIntents t (updateKeys s.keys) s.player)) := by
    simp [handleKeys, hm]
  rw [hplayer]
  unfold groundClamp
  rw [if_pos hg]
  refine ⟨?_, ?_, ?_, ?_⟩
  · by_cases hsp : (updateKeys s.keys).keySpace.downCount = 1 <;> simp [hsp]
  · intro hsp
    simp [hsp]
  · intro hsp
    simp [hsp]
  · intro hdn hcnt
    have hne : (updateKeys s.keys).keySpace.downCount ≠ 1 := by
      simp only [updateKeys, bumpKey, hdn, if_pos]
      omega
    simp [hne]

/-- C1 witness: with no key held and elapsed time zero, the grounded base
state ends clamped to ground level with zero vertical velocity. -/
theorem update_ground_clamp_jump_edge_witness :
    (handleKeys trigAtZero 0 baseState).player.y
        = (GameMap.create 42).getY pW1.x pW1.z + PLAYER_HALF_HEIGHT ∧
    (handleKeys trigAtZero 0 baseState).player.dy = 0 := by
  have hy : pW1.y = 0 := by
    simp [pW1, integrate, applyIntents, updateKeys, bumpKey, baseState, basePlayer,
      keysInit, ks0, upHeld, downHeld, leftHeld, rightHeld]
  have hgY : (0 : ℚ) ≤ (GameMap.create 42).getY pW1.x pW1.z := by
    unfold GameMap.getY
    exact Nat.cast_nonneg _
  have hg : pW1.y < (GameMap.create 42).getY pW1.x pW1.z + PLAYER_HALF_HEIGHT := by
    rw [hy]
    have hh : (0 : ℚ) < PLAYER_HALF_HEIGHT := by norm_num [PLAYER_HALF_HEIGHT]
    linarith
  have h := update_ground_clamp_jump_edge trigAtZero 0 baseState (GameMap.create 42)
      (updateKeys baseState.keys) pW1 rfl rfl rfl hg
  refine ⟨h.1, h.2.1 ?_⟩
  simp [updateKeys, bumpKey, baseState, keysInit, ks0]
